import Mathlib

/-!
Shallow embedding of src/utils/kaleidoscope.py.

A 2D torch tensor of floats is modelled as a `Tensor2`: explicit row and
column counts together with a total value function `val : Nat -> Nat -> Rat`
(only the values at indices below the shape are meaningful; pixel
intensities are modelled as rationals). Integer index tensors (pxIdx,
blkIdx) are modelled as `ITensor2` with integer entries, since Python/torch
indexing accepts negative indices (which wrap).  Fallible operations return
`Option` (`none` = the Python code raises).
-/

/-- A 2D float tensor: shape plus value function. -/
structure Tensor2 where
  rows : Nat
  cols : Nat
  val : Nat → Nat → ℚ

/-- A 2D integer index tensor (pxIdx / blkIdx in the source). -/
structure ITensor2 where
  rows : Nat
  cols : Nat
  val : Nat → Nat → ℤ

/-- torch .t(): transpose of a 2D tensor. -/
def Tensor2.t (a : Tensor2) : Tensor2 :=
  { rows := a.cols, cols := a.rows, val := fun i j => a.val j i }

/-- An n-dimensional tensor, used only at the entry of KaleidoExpan where the
input may still carry singleton dimensions before `.squeeze()`. -/
structure TensorN where
  shape : List Nat
  val : List Nat → ℚ

/-- torch .squeeze() on the shape: drops every dimension of size 1. -/
def squeezeShape (s : List Nat) : List Nat := s.filter (fun d => d ≠ 1)

/-- Re-expand a coordinate list of the squeezed tensor into a full coordinate
list of the original tensor (coordinate 0 at every squeezed-out singleton
dimension). -/
def expandIdx : List Nat → List Nat → List Nat
  | [], _ => []
  | d :: ds, cs =>
      if d = 1 then 0 :: expandIdx ds cs else cs.headD 0 :: expandIdx ds cs.tail

/-- The Kaleidoscope class: `__init__` (kaleidoscope.py lines 15-33) merely
stores its three arguments, performing no validation whatsoever.
repNums = (up, down, left, right); padding = (top, bottom, left, right). -/
structure Kaleidoscope where
  repNums : Nat × Nat × Nat × Nat
  padding : Nat × Nat × Nat × Nat
  reflectivity : ℚ

/-- Python range(start, stop, step): number of produced elements. -/
def pyRangeLen (start stop step : ℤ) : Nat :=
  if 0 < step then ((stop - start + step - 1) / step).toNat
  else if step < 0 then ((start - stop - step - 1) / (-step)).toNat
  else 0

/-- Python range(start, stop, step) as a list of integers. -/
def pyRange (start stop step : ℤ) : List ℤ :=
  (List.range (pyRangeLen start stop step)).map (fun k => start + step * k)

/-- kaleidoscope.py line 87: the list of image indices to be flipped
horizontally,
flipIdx = [*range(num_reps[0]-1, -1, -2), *range(num_reps[0]+1, sum(num_reps)+1, 2)]. -/
def flipIdx (before after : Nat) : List ℤ :=
  pyRange ((before : ℤ) - 1) (-1) (-2) ++
    pyRange ((before : ℤ) + 1) ((before : ℤ) + (after : ℤ) + 1) 2

/-- kaleidoscope.py line 90: the list of image indices NOT to be flipped,
keepIdx = list(set(range(0, sum(num_reps)+1)) - set(flipIdx)).  (Python's
set difference is order-free; only membership is ever used downstream, so
the set difference is embedded as a filter.) -/
def keepIdx (before after : Nat) : List ℤ :=
  ((List.range (before + after + 1)).map (fun n => (n : ℤ))).filter
    (fun x => x ∉ flipIdx before after)

/-- kaleidoscope.py line 93: attenuation exponents,
attenIdx = cat(arange(num_reps[0], 0, -1), arange(0, num_reps[1]+1)). -/
def attenIdx (before after : Nat) : List Nat :=
  (List.range before).map (fun k => before - k) ++ List.range (after + 1)

/-- kaleidoscope.py line 94: attenFactor = reflectivity ** attenIdx, read at
position p. -/
def attenFactor (refl : ℚ) (before after p : Nat) : ℚ :=
  refl ^ (attenIdx before after).getD p 0

/-- The image stored at horizontal tile position p of imageRow after the two
scatter assignments of kaleidoscope.py lines 100 and 103 (flipped copy at
the flipIdx positions, the original at the keepIdx positions, zeros from
the line-84 allocation elsewhere), before attenuation is applied. -/
def mirrorRow (im : Tensor2) (before after p r c : Nat) : ℚ :=
  if (p : ℤ) ∈ flipIdx before after then im.val r (im.cols - 1 - c)
  else if (p : ℤ) ∈ keepIdx before after then im.val r c
  else 0

/-- kaleidoscope.py lines 65-112, ParaMirrorCavity: the h x (T*w) row of
mirror images (T = before+after+1).  The final view(h, -1) of line 110
binds tile position p and in-tile column c into the single column index
q = p*w + c, so the value at (r, q) is the attenuated mirrorRow entry at
tile q / w, in-tile column q % w. -/
def Kaleidoscope.ParaMirrorCavity (K : Kaleidoscope) (padded_image : Tensor2)
    (num_reps : Nat × Nat) : Tensor2 :=
  { rows := padded_image.rows
    cols := (num_reps.1 + num_reps.2 + 1) * padded_image.cols
    val := fun r q =>
      attenFactor K.reflectivity num_reps.1 num_reps.2 (q / padded_image.cols) *
        mirrorRow padded_image num_reps.1 num_reps.2
          (q / padded_image.cols) r (q % padded_image.cols) }

/-- kaleidoscope.py lines 55-58: embed the image into a zero canvas enlarged
by the four paddings, at offset (top, left). -/
def padTensor (im : Tensor2) (top bottom left right : Nat) : Tensor2 :=
  { rows := im.rows + top + bottom
    cols := im.cols + left + right
    val := fun i j =>
      if top ≤ i ∧ i < top + im.rows ∧ left ≤ j ∧ j < left + im.cols then
        im.val (i - top) (j - left)
      else 0 }

/-- kaleidoscope.py lines 52-63, the body of KaleidoExpan once a 2D image is
in hand: pad, mirror horizontally with repNums[2:] = (left, right),
transpose, mirror with repNums[0:2] = (up, down), transpose back. -/
def Kaleidoscope.KaleidoExpanOn2D (K : Kaleidoscope) (im : Tensor2) : Tensor2 :=
  (K.ParaMirrorCavity
    ((K.ParaMirrorCavity
        (padTensor im K.padding.1 K.padding.2.1 K.padding.2.2.1 K.padding.2.2.2)
        (K.repNums.2.2.1, K.repNums.2.2.2)).t)
    (K.repNums.1, K.repNums.2.1)).t

/-- kaleidoscope.py lines 35-63, KaleidoExpan: squeeze the input, then the
unpacking (h, w) = im.shape raises unless exactly two dimensions remain
(modelled as none); otherwise run the 2D body on the squeezed image. -/
def Kaleidoscope.KaleidoExpan (K : Kaleidoscope) (original_image : TensorN) :
    Option Tensor2 :=
  match squeezeShape original_image.shape with
  | [h, w] =>
      some (K.KaleidoExpanOn2D
        { rows := h, cols := w
          val := fun i j => original_image.val (expandIdx original_image.shape [i, j]) })
  | _ => none

/-- Python/torch indexing bounds for a dimension of size n: valid iff
-n <= v < n (negative indices wrap). -/
def checkIdx (n : Nat) (v : ℤ) : Bool := decide (-(n : ℤ) ≤ v) && decide (v < (n : ℤ))

/-- Effective index after Python negative-index wrapping. -/
def wrapIdx (n : Nat) (v : ℤ) : Nat := (if v < 0 then v + (n : ℤ) else v).toNat

/-- Whether the loop of kaleidoscope.py lines 153-178 completes without an
indexing error: every blkIdx entry must be a valid row index of matIn
(line 162, matIn[blkIdx[i, j], :]), and — provided the block grid is
non-empty, so that line 162 runs at all — every pxIdx entry must be a
valid position for torch.take into the selected row of length matIn.cols. -/
def transformOk (matIn : Tensor2) (pxIdx blkIdx : ITensor2) : Bool :=
  ((List.range blkIdx.rows).all fun i =>
      (List.range blkIdx.cols).all fun j => checkIdx matIn.rows (blkIdx.val i j))
  && (decide (blkIdx.rows = 0) || decide (blkIdx.cols = 0) ||
      ((List.range pxIdx.rows).all fun r =>
        (List.range pxIdx.cols).all fun c => checkIdx matIn.cols (pxIdx.val r c)))

/-- The content of the unit block placed at block-grid position (i, j),
kaleidoscope.py lines 161-172: gather blk2D[r][c] = matIn[blkIdx[i,j]][pxIdx[r][c]];
then, only when centerBlk has exactly two elements (line 167), flip
vertically iff (i - ci) % 2 == 1, horizontally iff (j - cj) % 2 == 1, and
scale by reflectivity ** (|i-ci| + |j-cj|).  An empty centerBlk (line 165)
or one of any other length falls through both branches and leaves the
gathered block untouched. -/
def blkVal (K : Kaleidoscope) (matIn : Tensor2) (pxIdx blkIdx : ITensor2)
    (centerBlk : List ℤ) (i j r c : Nat) : ℚ :=
  match centerBlk with
  | [ci, cj] =>
      K.reflectivity ^ (((i : ℤ) - ci).natAbs + ((j : ℤ) - cj).natAbs) *
        matIn.val (wrapIdx matIn.rows (blkIdx.val i j))
          (wrapIdx matIn.cols (pxIdx.val
            (if ((i : ℤ) - ci) % 2 = 1 then pxIdx.rows - 1 - r else r)
            (if ((j : ℤ) - cj) % 2 = 1 then pxIdx.cols - 1 - c else c)))
  | _ =>
      matIn.val (wrapIdx matIn.rows (blkIdx.val i j))
        (wrapIdx matIn.cols (pxIdx.val r c))

/-- kaleidoscope.py lines 114-182, KaleidoTransform.  Cell (i, j) of the
output grid is a (bh+pad0+pad1) x (bw+pad2+pad3) window; line 175 writes
the block at offset (pad0, pad2) inside its cell, and the view/transpose
sequence of lines 178-182 lays the cells out contiguously, so output
position (x, y) addresses cell (x / bhp, y / bwp) at in-cell offset
(x % bhp, y % bwp).  Any out-of-range index raises (none). -/
def Kaleidoscope.KaleidoTransform (K : Kaleidoscope) (matIn : Tensor2)
    (pxIdx blkIdx : ITensor2) (centerBlk : List ℤ) : Option Tensor2 :=
  if transformOk matIn pxIdx blkIdx then
    some
      { rows := blkIdx.rows * (pxIdx.rows + K.padding.1 + K.padding.2.1)
        cols := blkIdx.cols * (pxIdx.cols + K.padding.2.2.1 + K.padding.2.2.2)
        val := fun x y =>
          if K.padding.1 ≤ x % (pxIdx.rows + K.padding.1 + K.padding.2.1) ∧
             x % (pxIdx.rows + K.padding.1 + K.padding.2.1) < K.padding.1 + pxIdx.rows ∧
             K.padding.2.2.1 ≤ y % (pxIdx.cols + K.padding.2.2.1 + K.padding.2.2.2) ∧
             y % (pxIdx.cols + K.padding.2.2.1 + K.padding.2.2.2) < K.padding.2.2.1 + pxIdx.cols
          then
            blkVal K matIn pxIdx blkIdx centerBlk
              (x / (pxIdx.rows + K.padding.1 + K.padding.2.1))
              (y / (pxIdx.cols + K.padding.2.2.1 + K.padding.2.2.2))
              (x % (pxIdx.rows + K.padding.1 + K.padding.2.1) - K.padding.1)
              (y % (pxIdx.cols + K.padding.2.2.1 + K.padding.2.2.2) - K.padding.2.2.1)
          else 0 }
  else none

/-- Sample 2x2 image for concrete witnesses. -/
def imS : Tensor2 := { rows := 2, cols := 2, val := fun i j => (i : ℚ) + 2 * (j : ℚ) }

/-- Sample 1x2 input matrix for KaleidoTransform witnesses. -/
def matS : Tensor2 := { rows := 1, cols := 2, val := fun _ j => (j : ℚ) + 1 }

/-- Sample 1x2 pixel index map. -/
def pxS : ITensor2 := { rows := 1, cols := 2, val := fun _ j => (j : ℤ) }

/-- Sample 2x2 block index map (all blocks fed from row 0). -/
def bkS : ITensor2 := { rows := 2, cols := 2, val := fun _ _ => 0 }

/-- Block index map holding the out-of-range row index 5. -/
def bkBad : ITensor2 := { rows := 1, cols := 1, val := fun _ _ => 5 }

/-- Sample configuration with reflectivity 1/2. -/
def KS : Kaleidoscope :=
  { repNums := (1, 1, 1, 1), padding := (1, 0, 1, 0), reflectivity := 1/2 }

/-- Configuration with the invalid reflectivity 2 (outside (0, 1]), accepted
unchecked by the constructor. -/
def KBad : Kaleidoscope :=
  { repNums := (0, 0, 0, 0), padding := (0, 0, 0, 0), reflectivity := 2 }

/-- A 3D sample input whose squeeze keeps 3 dimensions. -/
def tN3 : TensorN := { shape := [2, 3, 4], val := fun _ => 0 }

/-- A single-channel 28x28 sample input, as the MNIST driver at the bottom
of the file would supply after ToTensor conversion. -/
def tN28 : TensorN := { shape := [1, 28, 28], val := fun _ => 0 }

/-- The configuration of the driver: repNums (1,2,1,1), padding (2,2,2,2). -/
def K28 : Kaleidoscope :=
  { repNums := (1, 2, 1, 1), padding := (2, 2, 2, 2), reflectivity := 1 }

/-! ### Helper lemmas about the index lists of ParaMirrorCavity -/

lemma mem_pyRange {x start stop step : ℤ} :
    x ∈ pyRange start stop step ↔
      ∃ k : Nat, k < pyRangeLen start stop step ∧ x = start + step * k := by
  simp [pyRange, eq_comm]
  constructor
  · rintro ⟨a, ⟨k, hk, rfl⟩, rfl⟩
    exact ⟨k, hk, rfl⟩
  · rintro ⟨k, hk, rfl⟩
    exact ⟨_, ⟨k, hk, rfl⟩, rfl⟩

lemma mem_flipIdx {before after p : Nat} (hp : p ≤ before + after) :
    ((p : ℤ) ∈ flipIdx before after) ↔ Odd ((p : ℤ) - before).natAbs := by
  rw [Int.natAbs_odd, Int.odd_iff]
  simp only [flipIdx, List.mem_append, mem_pyRange, pyRangeLen]
  norm_num
  constructor
  · rintro (⟨k, hk, hx⟩ | ⟨k, hk, hx⟩) <;> omega
  · intro h
    by_cases hpb : p < before
    · exact Or.inl ⟨(before - 1 - p) / 2, by omega, by omega⟩
    · exact Or.inr ⟨(p - before - 1) / 2, by omega, by omega⟩

lemma mem_keepIdx {before after p : Nat} :
    ((p : ℤ) ∈ keepIdx before after) ↔
      p < before + after + 1 ∧ ((p : ℤ) ∉ flipIdx before after) := by
  simp [keepIdx, List.mem_filter, List.mem_map, List.mem_range]

lemma mirrorRow_eq (im : Tensor2) {before after : Nat} (p : Nat)
    (hp : p ≤ before + after) (r c : Nat) :
    mirrorRow im before after p r c =
      if Odd ((p : ℤ) - before).natAbs then im.val r (im.cols - 1 - c)
      else im.val r c := by
  rw [mirrorRow]
  by_cases h : Odd ((p : ℤ) - before).natAbs
  · rw [if_pos ((mem_flipIdx hp).2 h), if_pos h]
  · have h1 : (p : ℤ) ∉ flipIdx before after := fun hm => h ((mem_flipIdx hp).1 hm)
    rw [if_neg h1, if_pos (mem_keepIdx.2 ⟨by omega, h1⟩), if_neg h]

lemma attenIdx_getD {before after : Nat} (p : Nat) (hp : p ≤ before + after) :
    (attenIdx before after).getD p 0 = ((p : ℤ) - before).natAbs := by
  rw [attenIdx]
  have hlen : p < (((List.range before).map (fun k => before - k)) ++
      List.range (after + 1)).length := by
    simp; omega
  rw [List.getD_eq_getElem _ _ hlen]
  by_cases h : p < before
  · rw [List.getElem_append_left (by simpa using h)]
    rw [List.getElem_map, List.getElem_range]
    omega
  · rw [List.getElem_append_right (by simpa using h)]
    simp only [List.length_map, List.length_range, List.getElem_range]
    omega

lemma ParaMirrorCavity_val (K : Kaleidoscope) (im : Tensor2) {p c : Nat}
    (before after : Nat) (hc : c < im.cols) (r : Nat) :
    (K.ParaMirrorCavity im (before, after)).val r (p * im.cols + c) =
      attenFactor K.reflectivity before after p * mirrorRow im before after p r c := by
  have hw : 0 < im.cols := by omega
  have hdiv : (p * im.cols + c) / im.cols = p := by
    rw [Nat.mul_comm, Nat.mul_add_div hw, Nat.div_eq_of_lt hc]
    omega
  have hmod : (p * im.cols + c) % im.cols = c := by
    rw [Nat.mul_comm, Nat.mul_add_mod, Nat.mod_eq_of_lt hc]
  simp [Kaleidoscope.ParaMirrorCavity, hdiv, hmod]

/-! ### Claims about ParaMirrorCavity and KaleidoExpan -/

/-- Claim C1: in ParaMirrorCavity, for every 2D input image and every
repetition pair (before, after) with before, after >= 0, the tile placed at
position p (0-indexed, original at position before) is a column-reversed
copy of the input exactly when the distance from the center is odd:
position p belongs to the flip list iff the distance is odd, and the image
assigned to tile p (before attenuation) is the horizontally flipped input
when the distance is odd and the unflipped input otherwise.  Instantiating
before = after = 2 (center index 2) gives the flipped copies at positions
1 and 3 and the unflipped original at 0, 2 and 4. -/
theorem ParaMirrorCavity_flip_parity (im : Tensor2) (before after p : Nat)
    (hp : p ≤ before + after) (r c : Nat) :
    (((p : ℤ) ∈ flipIdx before after) ↔ Odd ((p : ℤ) - (before : ℤ)).natAbs) ∧
    mirrorRow im before after p r c =
      (if Odd ((p : ℤ) - (before : ℤ)).natAbs then im.val r (im.cols - 1 - c)
       else im.val r c) :=
  ⟨mem_flipIdx hp, mirrorRow_eq im p hp r c⟩

/-- Witness for C1 at before = after = 2, p = 1 (distance 1, flipped). -/
theorem ParaMirrorCavity_flip_parity_witness :
    (1 : Nat) ≤ 2 + 2 ∧
    (((((1 : Nat) : ℤ)) ∈ flipIdx 2 2 ↔ Odd (((1 : Nat) : ℤ) - ((2 : Nat) : ℤ)).natAbs) ∧
      mirrorRow imS 2 2 1 0 0 =
        (if Odd (((1 : Nat) : ℤ) - ((2 : Nat) : ℤ)).natAbs then imS.val 0 (imS.cols - 1 - 0)
         else imS.val 0 0)) :=
  ⟨by decide, ParaMirrorCavity_flip_parity imS 2 2 1 (by decide) 0 0⟩

/-- Claim C2: in ParaMirrorCavity, the tile at position p carries the values
reflectivity ^ |p - before| times the flipped-or-original input values, and
the exponent |p - before| vanishes exactly at the center p = before. -/
theorem ParaMirrorCavity_attenuation (K : Kaleidoscope) (im : Tensor2)
    (before after p : Nat) (hp : p ≤ before + after) (r c : Nat) (hc : c < im.cols) :
    (K.ParaMirrorCavity im (before, after)).val r (p * im.cols + c) =
      K.reflectivity ^ ((p : ℤ) - (before : ℤ)).natAbs *
        (if Odd ((p : ℤ) - (before : ℤ)).natAbs then im.val r (im.cols - 1 - c)
         else im.val r c) ∧
    (((p : ℤ) - (before : ℤ)).natAbs = 0 ↔ p = before) := by
  constructor
  · rw [ParaMirrorCavity_val K im before after hc r, mirrorRow_eq im p hp r c]
    unfold attenFactor
    rw [attenIdx_getD p hp]
  · omega

/-- Witness for C2 at before = after = 1, p = 0 (distance 1). -/
theorem ParaMirrorCavity_attenuation_witness :
    (0 : Nat) ≤ 1 + 1 ∧ (0 : Nat) < imS.cols ∧
    ((KS.ParaMirrorCavity imS (1, 1)).val 0 (0 * imS.cols + 0) =
        KS.reflectivity ^ (((0 : Nat) : ℤ) - ((1 : Nat) : ℤ)).natAbs *
          (if Odd (((0 : Nat) : ℤ) - ((1 : Nat) : ℤ)).natAbs then imS.val 0 (imS.cols - 1 - 0)
           else imS.val 0 0) ∧
      ((((0 : Nat) : ℤ) - ((1 : Nat) : ℤ)).natAbs = 0 ↔ (0 : Nat) = 1)) :=
  ⟨by decide, by decide,
    ParaMirrorCavity_attenuation KS imS 1 1 0 (by decide) 0 0 (by decide)⟩

/-- Claim C8: ParaMirrorCavity with reps = (0, 0) returns the input
unchanged: same shape and, at every in-range position, the same value. -/
theorem ParaMirrorCavity_identity (K : Kaleidoscope) (im : Tensor2) :
    (K.ParaMirrorCavity im (0, 0)).rows = im.rows ∧
    (K.ParaMirrorCavity im (0, 0)).cols = im.cols ∧
    ∀ r q, r < im.rows → q < im.cols →
      (K.ParaMirrorCavity im (0, 0)).val r q = im.val r q := by
  refine ⟨rfl, by simp [Kaleidoscope.ParaMirrorCavity], fun r q hr hq => ?_⟩
  have h0 : q / im.cols = 0 := Nat.div_eq_of_lt hq
  have h1 : q % im.cols = q := Nat.mod_eq_of_lt hq
  show attenFactor K.reflectivity 0 0 (q / im.cols) *
      mirrorRow im 0 0 (q / im.cols) r (q % im.cols) = im.val r q
  rw [h0, h1]
  unfold mirrorRow attenFactor
  rw [if_neg (by decide : ¬ (((0 : Nat) : ℤ) ∈ flipIdx 0 0)),
    if_pos (by decide : (((0 : Nat) : ℤ) ∈ keepIdx 0 0)),
    (by decide : (attenIdx 0 0).getD 0 0 = 0), pow_zero, one_mul]

/-- Witness for C8 on the sample image. -/
theorem ParaMirrorCavity_identity_witness :
    (0 : Nat) < imS.rows ∧ (0 : Nat) < imS.cols ∧
    (KS.ParaMirrorCavity imS (0, 0)).val 0 0 = imS.val 0 0 :=
  ⟨by decide, by decide,
    (ParaMirrorCavity_identity KS imS).2.2 0 0 (by decide) (by decide)⟩

/-- Claim C5: KaleidoExpan on a 2D image of shape (H, W) with padding
(top, bottom, left, right) and repNums (up, down, left, right) produces the
shape ((H+top+bottom)*(up+down+1), (W+left+right)*(left+right+1)); for a
(28, 28) image with padding (2,2,2,2) and repNums (1,2,1,1) that is
exactly (128, 96). -/
theorem KaleidoExpan_shape (K : Kaleidoscope) (t : TensorN) (h w : Nat)
    (hs : squeezeShape t.shape = [h, w]) :
    ∃ out, K.KaleidoExpan t = some out ∧
      out.rows = (h + K.padding.1 + K.padding.2.1) * (K.repNums.1 + K.repNums.2.1 + 1) ∧
      out.cols = (w + K.padding.2.2.1 + K.padding.2.2.2) *
        (K.repNums.2.2.1 + K.repNums.2.2.2 + 1) ∧
      (h = 28 → w = 28 → K.padding = (2, 2, 2, 2) → K.repNums = (1, 2, 1, 1) →
        out.rows = 128 ∧ out.cols = 96) := by
  unfold Kaleidoscope.KaleidoExpan
  rw [hs]
  have e1 : (K.KaleidoExpanOn2D
      { rows := h, cols := w, val := fun i j => t.val (expandIdx t.shape [i, j]) }).rows =
      (h + K.padding.1 + K.padding.2.1) * (K.repNums.1 + K.repNums.2.1 + 1) :=
    Nat.mul_comm _ _
  have e2 : (K.KaleidoExpanOn2D
      { rows := h, cols := w, val := fun i j => t.val (expandIdx t.shape [i, j]) }).cols =
      (w + K.padding.2.2.1 + K.padding.2.2.2) *
        (K.repNums.2.2.1 + K.repNums.2.2.2 + 1) :=
    Nat.mul_comm _ _
  refine ⟨_, rfl, e1, e2, fun h1 h2 h3 h4 => ?_⟩
  rw [e1, e2, h1, h2, h3, h4]
  exact ⟨rfl, rfl⟩

/-- Witness for C5: the driver configuration on a squeezed (1,28,28) input. -/
theorem KaleidoExpan_shape_witness :
    ∃ out, K28.KaleidoExpan tN28 = some out ∧
      out.rows = (28 + K28.padding.1 + K28.padding.2.1) *
        (K28.repNums.1 + K28.repNums.2.1 + 1) ∧
      out.cols = (28 + K28.padding.2.2.1 + K28.padding.2.2.2) *
        (K28.repNums.2.2.1 + K28.repNums.2.2.2 + 1) ∧
      (28 = 28 → 28 = 28 → K28.padding = (2, 2, 2, 2) → K28.repNums = (1, 2, 1, 1) →
        out.rows = 128 ∧ out.cols = 96) :=
  KaleidoExpan_shape K28 tN28 28 28 (by decide)

/-- Claim C9: any input whose shape, after squeezing singleton dimensions,
is not exactly 2-dimensional is rejected by KaleidoExpan (the shape
unpacking raises; modelled as none). -/
theorem KaleidoExpan_rejects_nonplanar (K : Kaleidoscope) (t : TensorN)
    (h : (squeezeShape t.shape).length ≠ 2) :
    K.KaleidoExpan t = none := by
  rcases hs : squeezeShape t.shape with _ | ⟨a, _ | ⟨b, _ | _⟩⟩
  · simp [Kaleidoscope.KaleidoExpan, hs]
  · simp [Kaleidoscope.KaleidoExpan, hs]
  · exact absurd (by rw [hs]; rfl) h
  · simp [Kaleidoscope.KaleidoExpan, hs]

/-- Witness for C9 on the 3D sample input. -/
theorem KaleidoExpan_rejects_nonplanar_witness :
    (squeezeShape tN3.shape).length ≠ 2 ∧ KS.KaleidoExpan tN3 = none :=
  ⟨by decide, KaleidoExpan_rejects_nonplanar KS tN3 (by decide)⟩

/-! ### Helper lemmas about KaleidoTransform -/

lemma cell_div {b k : Nat} (i : Nat) (hk : k < b) : (i * b + k) / b = i := by
  rw [Nat.mul_comm, Nat.mul_add_div (by omega), Nat.div_eq_of_lt hk]
  omega

lemma cell_mod {b k : Nat} (i : Nat) (hk : k < b) : (i * b + k) % b = k := by
  rw [Nat.mul_comm, Nat.mul_add_mod, Nat.mod_eq_of_lt hk]

lemma KT_val_helper (K : Kaleidoscope) (matIn : Tensor2) (pxIdx blkIdx : ITensor2)
    (centerBlk : List ℤ) (hok : transformOk matIn pxIdx blkIdx = true) :
    ∃ out, K.KaleidoTransform matIn pxIdx blkIdx centerBlk = some out ∧
      out.rows = blkIdx.rows * (pxIdx.rows + K.padding.1 + K.padding.2.1) ∧
      out.cols = blkIdx.cols * (pxIdx.cols + K.padding.2.2.1 + K.padding.2.2.2) ∧
      ∀ i j r c, r < pxIdx.rows → c < pxIdx.cols →
        out.val (i * (pxIdx.rows + K.padding.1 + K.padding.2.1) + (K.padding.1 + r))
            (j * (pxIdx.cols + K.padding.2.2.1 + K.padding.2.2.2) + (K.padding.2.2.1 + c))
          = blkVal K matIn pxIdx blkIdx centerBlk i j r c := by
  unfold Kaleidoscope.KaleidoTransform
  rw [if_pos hok]
  refine ⟨_, rfl, rfl, rfl, ?_⟩
  intro i j r c hr hc
  dsimp only
  rw [cell_div i (by omega), cell_mod i (by omega), cell_div j (by omega),
    cell_mod j (by omega)]
  split
  · rw [Nat.add_sub_cancel_left, Nat.add_sub_cancel_left]
  · next hneg => exact absurd ⟨by omega, by omega, by omega, by omega⟩ hneg

/-! ### Claims about KaleidoTransform -/

/-- Claim C6: under the index-range preconditions, KaleidoTransform returns
an array of shape (gh*(bh+pad_v), gw*(bw+pad_h)); each block's content is
embedded at offset (pad_top, pad_left) within its (bh+pad_v, bw+pad_h)
cell, and cells are laid out contiguously by block-grid row and column (the
output position of in-block pixel (r, c) of block (i, j) is
(i*(bh+pad_v) + pad_top + r, j*(bw+pad_h) + pad_left + c)). -/
theorem KaleidoTransform_layout (K : Kaleidoscope) (matIn : Tensor2)
    (pxIdx blkIdx : ITensor2) (centerBlk : List ℤ)
    (hok : transformOk matIn pxIdx blkIdx = true) :
    ∃ out, K.KaleidoTransform matIn pxIdx blkIdx centerBlk = some out ∧
      out.rows = blkIdx.rows * (pxIdx.rows + K.padding.1 + K.padding.2.1) ∧
      out.cols = blkIdx.cols * (pxIdx.cols + K.padding.2.2.1 + K.padding.2.2.2) ∧
      ∀ i j r c, r < pxIdx.rows → c < pxIdx.cols →
        out.val (i * (pxIdx.rows + K.padding.1 + K.padding.2.1) + (K.padding.1 + r))
            (j * (pxIdx.cols + K.padding.2.2.1 + K.padding.2.2.2) + (K.padding.2.2.1 + c))
          = blkVal K matIn pxIdx blkIdx centerBlk i j r c :=
  KT_val_helper K matIn pxIdx blkIdx centerBlk hok

/-- Witness for C6 on the sample configuration and index maps. -/
theorem KaleidoTransform_layout_witness :
    transformOk matS pxS bkS = true ∧
    ∃ out, KS.KaleidoTransform matS pxS bkS [] = some out ∧
      out.rows = bkS.rows * (pxS.rows + KS.padding.1 + KS.padding.2.1) ∧
      out.cols = bkS.cols * (pxS.cols + KS.padding.2.2.1 + KS.padding.2.2.2) ∧
      ∀ i j r c, r < pxS.rows → c < pxS.cols →
        out.val (i * (pxS.rows + KS.padding.1 + KS.padding.2.1) + (KS.padding.1 + r))
            (j * (pxS.cols + KS.padding.2.2.1 + KS.padding.2.2.2) + (KS.padding.2.2.1 + c))
          = blkVal KS matS pxS bkS [] i j r c :=
  ⟨by decide, KaleidoTransform_layout KS matS pxS bkS [] (by decide)⟩

/-- Claim C3: with a 2-element centerBlock (ci, cj), the block at grid
position (i, j) is vertically flipped iff (i - ci) mod 2 = 1, horizontally
flipped iff (j - cj) mod 2 = 1 (a flip reads the gathered pixel at the
reversed in-block coordinate), and is scaled by exactly
reflectivity ^ (|i-ci| + |j-cj|), the Manhattan block-grid distance. -/
theorem KaleidoTransform_center_parity (K : Kaleidoscope) (matIn : Tensor2)
    (pxIdx blkIdx : ITensor2) (ci cj : ℤ) (i j r c : Nat)
    (hok : transformOk matIn pxIdx blkIdx = true)
    (hr : r < pxIdx.rows) (hc : c < pxIdx.cols) :
    ∃ out, K.KaleidoTransform matIn pxIdx blkIdx [ci, cj] = some out ∧
      out.val (i * (pxIdx.rows + K.padding.1 + K.padding.2.1) + (K.padding.1 + r))
          (j * (pxIdx.cols + K.padding.2.2.1 + K.padding.2.2.2) + (K.padding.2.2.1 + c))
        = K.reflectivity ^ (((i : ℤ) - ci).natAbs + ((j : ℤ) - cj).natAbs) *
            matIn.val (wrapIdx matIn.rows (blkIdx.val i j))
              (wrapIdx matIn.cols (pxIdx.val
                (if ((i : ℤ) - ci) % 2 = 1 then pxIdx.rows - 1 - r else r)
                (if ((j : ℤ) - cj) % 2 = 1 then pxIdx.cols - 1 - c else c))) := by
  obtain ⟨out, h1, _, _, h4⟩ := KT_val_helper K matIn pxIdx blkIdx [ci, cj] hok
  exact ⟨out, h1, h4 i j r c hr hc⟩

/-- Witness for C3: block (1, 1) with center (0, 0) on the sample data. -/
theorem KaleidoTransform_center_parity_witness :
    transformOk matS pxS bkS = true ∧
    ∃ out, KS.KaleidoTransform matS pxS bkS [0, 0] = some out ∧
      out.val (1 * (pxS.rows + KS.padding.1 + KS.padding.2.1) + (KS.padding.1 + 0))
          (1 * (pxS.cols + KS.padding.2.2.1 + KS.padding.2.2.2) + (KS.padding.2.2.1 + 1))
        = KS.reflectivity ^ ((((1 : Nat) : ℤ) - 0).natAbs + (((1 : Nat) : ℤ) - 0).natAbs) *
            matS.val (wrapIdx matS.rows (bkS.val 1 1))
              (wrapIdx matS.cols (pxS.val
                (if (((1 : Nat) : ℤ) - 0) % 2 = 1 then pxS.rows - 1 - 0 else 0)
                (if (((1 : Nat) : ℤ) - 0) % 2 = 1 then pxS.cols - 1 - 1 else 1))) :=
  ⟨by decide,
    KaleidoTransform_center_parity KS matS pxS bkS 0 0 1 1 0 1 (by decide)
      (by decide) (by decide)⟩

/-- Claim C7: with an absent (empty) centerBlk, every block is placed
unmodified — no flip and no attenuation — so the cell content is exactly
the gathered row values; consequently, cells whose blkIdx entries agree
hold identical content (in particular, a blkIdx that is constant tiles one
identical block into every cell). -/
theorem KaleidoTransform_no_center (K : Kaleidoscope) (matIn : Tensor2)
    (pxIdx blkIdx : ITensor2) (hok : transformOk matIn pxIdx blkIdx = true) :
    ∃ out, K.KaleidoTransform matIn pxIdx blkIdx [] = some out ∧
      (∀ i j r c, r < pxIdx.rows → c < pxIdx.cols →
        out.val (i * (pxIdx.rows + K.padding.1 + K.padding.2.1) + (K.padding.1 + r))
            (j * (pxIdx.cols + K.padding.2.2.1 + K.padding.2.2.2) + (K.padding.2.2.1 + c))
          = matIn.val (wrapIdx matIn.rows (blkIdx.val i j))
              (wrapIdx matIn.cols (pxIdx.val r c))) ∧
      (∀ i j i2 j2 r c, r < pxIdx.rows → c < pxIdx.cols →
        blkIdx.val i j = blkIdx.val i2 j2 →
        out.val (i * (pxIdx.rows + K.padding.1 + K.padding.2.1) + (K.padding.1 + r))
            (j * (pxIdx.cols + K.padding.2.2.1 + K.padding.2.2.2) + (K.padding.2.2.1 + c))
          = out.val (i2 * (pxIdx.rows + K.padding.1 + K.padding.2.1) + (K.padding.1 + r))
              (j2 * (pxIdx.cols + K.padding.2.2.1 + K.padding.2.2.2) + (K.padding.2.2.1 + c))) := by
  obtain ⟨out, h1, _, _, h4⟩ := KT_val_helper K matIn pxIdx blkIdx [] hok
  refine ⟨out, h1, fun i j r c hr hc => h4 i j r c hr hc, ?_⟩
  intro i j i2 j2 r c hr hc heq
  rw [h4 i j r c hr hc, h4 i2 j2 r c hr hc]
  unfold blkVal
  rw [heq]

/-- Witness for C7: all of bkS holds row index 0, so cells coincide. -/
theorem KaleidoTransform_no_center_witness :
    transformOk matS pxS bkS = true ∧
    ∃ out, KS.KaleidoTransform matS pxS bkS [] = some out ∧
      (∀ i j r c, r < pxS.rows → c < pxS.cols →
        out.val (i * (pxS.rows + KS.padding.1 + KS.padding.2.1) + (KS.padding.1 + r))
            (j * (pxS.cols + KS.padding.2.2.1 + KS.padding.2.2.2) + (KS.padding.2.2.1 + c))
          = matS.val (wrapIdx matS.rows (bkS.val i j))
              (wrapIdx matS.cols (pxS.val r c))) ∧
      (∀ i j i2 j2 r c, r < pxS.rows → c < pxS.cols →
        bkS.val i j = bkS.val i2 j2 →
        out.val (i * (pxS.rows + KS.padding.1 + KS.padding.2.1) + (KS.padding.1 + r))
            (j * (pxS.cols + KS.padding.2.2.1 + KS.padding.2.2.2) + (KS.padding.2.2.1 + c))
          = out.val (i2 * (pxS.rows + KS.padding.1 + KS.padding.2.1) + (KS.padding.1 + r))
              (j2 * (pxS.cols + KS.padding.2.2.1 + KS.padding.2.2.2) + (KS.padding.2.2.1 + c))) :=
  ⟨by decide, KaleidoTransform_no_center KS matS pxS bkS (by decide)⟩

/-- Claim C10: a non-empty centerBlk whose length is not 2 makes
KaleidoTransform behave exactly like the plain-tiling mode (centerBlk = ()):
it neither fails nor applies any flip or attenuation — the two calls return
identical results. -/
theorem KaleidoTransform_wrong_center_len (K : Kaleidoscope) (matIn : Tensor2)
    (pxIdx blkIdx : ITensor2) (cb : List ℤ) (hne : cb ≠ []) (hlen : cb.length ≠ 2) :
    K.KaleidoTransform matIn pxIdx blkIdx cb =
      K.KaleidoTransform matIn pxIdx blkIdx [] := by
  have hb : blkVal K matIn pxIdx blkIdx cb = blkVal K matIn pxIdx blkIdx [] := by
    funext i j r c
    rcases cb with _ | ⟨a, _ | ⟨b, _ | _⟩⟩
    · rfl
    · rfl
    · exact absurd rfl hlen
    · rfl
  unfold Kaleidoscope.KaleidoTransform
  rw [hb]

/-- Witness for C10: a 1-element centerBlk on the sample data. -/
theorem KaleidoTransform_wrong_center_len_witness :
    KS.KaleidoTransform matS pxS bkS [0] = KS.KaleidoTransform matS pxS bkS [] :=
  KaleidoTransform_wrong_center_len KS matS pxS bkS [0] (by decide) (by decide)

/-- Counterexample to claim C4: the InvalidConfig error kind is not
detected for an out-of-range reflectivity.  The constructor accepts the
invalid reflectivity 2 (outside (0, 1]) without complaint and
KaleidoTransform then runs to completion and produces an output instead of
failing. -/
theorem KaleidoTransform_no_config_validation :
    (1 : ℚ) < KBad.reflectivity ∧ (KBad.KaleidoTransform matS pxS bkS []).isSome = true :=
  ⟨by decide, by decide⟩

/-- Amended claim C4: a blkIdx entry ≥ the row count of matIn (an
out-of-range row index) makes KaleidoTransform fail with an out-of-range
error and no output is produced; a reflectivity outside (0, 1] is,
however, not detected: KaleidoTransform accepts it and produces output. -/
theorem KaleidoTransform_out_of_range (K : Kaleidoscope) (matIn : Tensor2)
    (pxIdx blkIdx : ITensor2) (centerBlk : List ℤ) (i j : Nat)
    (hi : i < blkIdx.rows) (hj : j < blkIdx.cols)
    (hv : (matIn.rows : ℤ) ≤ blkIdx.val i j) :
    K.KaleidoTransform matIn pxIdx blkIdx centerBlk = none := by
  have hok : ¬ (transformOk matIn pxIdx blkIdx = true) := by
    intro h
    unfold transformOk at h
    rw [Bool.and_eq_true] at h
    obtain ⟨h1, _⟩ := h
    rw [List.all_eq_true] at h1
    have h2 := h1 i (List.mem_range.2 hi)
    rw [List.all_eq_true] at h2
    have h3 := h2 j (List.mem_range.2 hj)
    unfold checkIdx at h3
    rw [Bool.and_eq_true, decide_eq_true_eq, decide_eq_true_eq] at h3
    omega
  unfold Kaleidoscope.KaleidoTransform
  rw [if_neg hok]

/-- Witness for the amended C4: blkIdx entry 5 against a 1-row matIn. -/
theorem KaleidoTransform_out_of_range_witness :
    (0 : Nat) < bkBad.rows ∧ (0 : Nat) < bkBad.cols ∧
    (matS.rows : ℤ) ≤ bkBad.val 0 0 ∧
    KS.KaleidoTransform matS pxS bkBad [] = none :=
  ⟨by decide, by decide, by decide,
    KaleidoTransform_out_of_range KS matS pxS bkBad [] 0 0 (by decide) (by decide)
      (by decide)⟩
